import Mathlib

/-!
A verification development for the SeguraAssina RSA document-signing system.

The repository's frontend (React: `api.js`, `DocumentSigner.jsx`,
`SignatureVerifier.jsx`, `KeyGenerator.jsx`) is embedded directly from its
source below.  The backend signing core (Flask/PyCryptodome: the
DigestEngine, KeyPairGenerator, Signer and Verifier of spec section 4) is not
part of the available sources — only its callers in `api.js` are — so the
core is modelled from the specification's contracts, with randomness and the
cryptographic primitives idealized symbolically.
-/

namespace Core

/-- Modelled from the spec: a Document is a raw byte sequence of arbitrary
length and content; bytes are modelled as naturals. -/
def Document : Type := List Nat

deriving instance DecidableEq, Repr for Document

/-- Modelled from the spec: a Digest is the deterministic fingerprint of a
Document.  The spec assumes the underlying primitive's collision resistance
("any single-bit change in Document yields, with overwhelming probability, a
completely different Digest") rather than reimplementing it; the model
idealizes this as injectivity by letting the digest be a faithful fingerprint
of the bytes themselves. -/
def Digest : Type := List Nat

deriving instance DecidableEq, Repr for Digest

/-- Modelled from the spec: `DigestEngine.digest(bytes) -> Digest`, a pure,
deterministic, total function over any byte sequence including empty input,
idealized as an injective fingerprint (see `Digest`). -/
def digest (d : Document) : Digest := d

/-- The fixed reason-code enumeration of spec section 6, the only vocabulary
the core owns. -/
inductive Reason where
  | OK
  | INTEGRITY_VIOLATION
  | AUTHENTICITY_FAILURE
  | INVALID_KEY
  | INVALID_SIGNATURE
deriving DecidableEq, Repr

/-- Modelled from the spec: VerificationResult is
`{valid, digestCalculated, reason}`, produced fresh per verification call. -/
structure VerificationResult where
  valid : Bool
  digestCalculated : Digest
  reason : Reason
deriving DecidableEq, Repr

/-- Modelled from the spec: the public-key input to `verify` is caller-
supplied material that either parses to mathematically structured key
material (identified here by the generating call's identity, see `KeyPair`)
or is malformed. -/
inductive PubKeyInput where
  | parsed (keyId : Nat)
  | malformed
deriving DecidableEq, Repr

/-- Modelled from the spec: the private-key input to `sign` either parses as
a key of the expected algorithm family or is malformed
(`InvalidPrivateKey`). -/
inductive PrivKeyInput where
  | parsed (keyId : Nat)
  | malformed
deriving DecidableEq, Repr

/-- Modelled from the spec: a structurally well-formed signature encodes what
it attests to — the digest recoverable from the signing transform — together
with the identity of the key pair whose private half produced it ("valid only
relative to the specific (Digest, matching publicKey) pair"); anything else
is structurally malformed (`INVALID_SIGNATURE`). -/
inductive SigInput where
  | parsed (attested : Digest) (signerId : Nat)
  | malformed
deriving DecidableEq, Repr

/-- Modelled from the spec: KeyPair is `{publicKey, privateKey, keySize}`
whose two halves are the unique pairing partners of one generating call,
identified by `keyId`. -/
structure KeyPair where
  keyId : Nat
  keySize : Nat
deriving DecidableEq, Repr

/-- The public half of a key pair, as the parseable verify input. -/
def KeyPair.publicKey (K : KeyPair) : PubKeyInput := .parsed K.keyId

/-- The private half of a key pair, as the parseable sign input. -/
def KeyPair.privateKey (K : KeyPair) : PrivKeyInput := .parsed K.keyId

/-- Modelled from the spec: the Signer's error conditions (`DocumentTooLarge`
is a collaborator-enforced policy, not fixed by the core, so the core model
has no size check). -/
inductive SignError where
  | InvalidPrivateKey
deriving DecidableEq, Repr

/-- Modelled from the spec: `sign` returns `{signature, digest}`. -/
structure SignResult where
  signature : SigInput
  digest : Digest
deriving DecidableEq, Repr

/-- Modelled from the spec: `sign(document, privateKey)` computes
`digest = DigestEngine.digest(document)` and applies the signing transform to
the digest (never the raw document) with the private key; a malformed key
fails with `InvalidPrivateKey`. -/
def sign (document : Document) (privateKey : PrivKeyInput) :
    Except SignError SignResult :=
  match privateKey with
  | .malformed => .error .InvalidPrivateKey
  | .parsed keyId => .ok ⟨SigInput.parsed (digest document) keyId, digest document⟩

/-- Modelled from the spec: `verify(document, signature, publicKey)`,
following the algorithm of spec section 4.4 step by step:
1. parse the public key, `INVALID_KEY` if malformed (digest still computed);
2. parse the signature structure, `INVALID_SIGNATURE` if malformed;
3. compute `digestCalculated`;
4-6. classify: if what the signature attests to differs from
`digestCalculated`, `INTEGRITY_VIOLATION`; if the digest matches but the
cryptographic check against this specific public key fails,
`AUTHENTICITY_FAILURE`; otherwise `OK`;
7. `digestCalculated` is returned in the result regardless of outcome. -/
def verify (document : Document) (signature : SigInput)
    (publicKey : PubKeyInput) : VerificationResult :=
  let digestCalculated := digest document
  match publicKey with
  | .malformed => ⟨false, digestCalculated, .INVALID_KEY⟩
  | .parsed keyId =>
    match signature with
    | .malformed => ⟨false, digestCalculated, .INVALID_SIGNATURE⟩
    | .parsed attested signerId =>
      if attested ≠ digestCalculated then
        ⟨false, digestCalculated, .INTEGRITY_VIOLATION⟩
      else if signerId ≠ keyId then
        ⟨false, digestCalculated, .AUTHENTICITY_FAILURE⟩
      else
        ⟨true, digestCalculated, .OK⟩

/-- Modelled from the spec: KeyPairGenerator failure kinds. -/
inductive GenError where
  | UnsupportedKeySize
  | GenerationFailure
deriving DecidableEq, Repr

/-- Modelled from the spec: `generate(keySizeBits)` requires keySizeBits to
be in the allow-list (2048 and 4096), failing with `UnsupportedKeySize`
otherwise.  The cryptographically secure randomness source is modelled as an
injected `entropy` capability (spec section 9 design note); each distinct
entropy draw yields an independent pair, identified by `keyId`. -/
def generate (keySizeBits : Nat) (entropy : Nat) : Except GenError KeyPair :=
  if keySizeBits = 2048 ∨ keySizeBits = 4096 then
    .ok ⟨entropy, keySizeBits⟩
  else
    .error .UnsupportedKeySize

end Core

namespace Frontend

/-- A JavaScript runtime value, as far as the frontend handlers inspect one:
strings, numbers, booleans, `null`, `undefined`, objects (ordered field
lists) and arrays.  `JSON.parse` produces every constructor except
`jundefined`; `jundefined` is the result of reading an absent property. -/
inductive JVal where
  | jstr (s : String)
  | jnum (n : Int)
  | jbool (b : Bool)
  | jnull
  | jundefined
  | jobj (fields : List (String × JVal))
  | jarr (elems : List JVal)

/-- JavaScript truthiness of a value, as used by `a || b`. -/
def jsTruthy : JVal → Bool
  | .jstr s => s ≠ ""
  | .jnum n => n ≠ 0
  | .jbool b => b
  | .jnull => false
  | .jundefined => false
  | .jobj _ => true
  | .jarr _ => true

/-- JavaScript property read `v.k`: throws a TypeError (modelled as
`Except.error`) when the receiver is `null` or `undefined`, yields the field
for objects (first occurrence, `undefined` when absent), and yields
`undefined` on other primitives. -/
def getProp (v : JVal) (k : String) : Except Unit JVal :=
  match v with
  | .jnull => .error ()
  | .jundefined => .error ()
  | .jobj fields => .ok ((fields.lookup k).getD .jundefined)
  | _ => .ok .jundefined

/-- A selected browser `File` as the handlers consume it: its name, its byte
size, and `base64` — the value `fileToBase64` resolves to for it (the
Base64-encoded content, produced by the `FileReader` data-URL path modelled
separately by `splitOnComma` below). -/
structure File where
  name : String
  size : Nat
  base64 : String
deriving DecidableEq, Repr

/-- An uploaded signature file as `handleSigFileUpload` consumes it: the raw
text returned by `sigFile.text()`, and `parsed` — the result of
`JSON.parse(text)`, `none` when the parse throws. -/
structure SigFile where
  raw : String
  parsed : Option JVal

/-- An HTTP call made through `api.js` to the backend. -/
inductive ApiCall where
  | calculateHash (documentBase64 : String)
  | signDocument (documentBase64 : String) (privateKey : String)
  | verifySignature (documentBase64 : String) (signature : String)
      (publicKey : String)
deriving DecidableEq, Repr

/-- The `/api/sign` success payload `{signature, hash, algorithm}`
(`api.js` `signDocument`). -/
structure SignResponse where
  signature : String
  hash : String
  algorithm : String
deriving DecidableEq, Repr

/-- The `/api/verify` success payload `{valid, hash_calculated, reason}`
(`api.js` `verifySignature`). -/
structure VerifyResponse where
  valid : Bool
  hash_calculated : String
  reason : String
deriving DecidableEq, Repr

/-- A file handed to `downloadFile`: its content, modelled in parsed form
(`JSON.stringify`/`JSON.parse` round-trip assumed for the `.sig` JSON), and
its filename. -/
structure Download where
  content : JVal
  filename : String

/-- Whitespace as JavaScript `String.prototype.trim` strips it (spaces,
tabs and line terminators). -/
def jsSpace (c : Char) : Bool := c = ' ' || c = '\t' || c = '\n' || c = '\r'

/-- JavaScript `s.trim()`: the string with leading and trailing whitespace
removed. -/
def jsTrim (s : String) : String :=
  ⟨((s.data.dropWhile jsSpace).reverse.dropWhile jsSpace).reverse⟩

namespace DocumentSigner

/-- The `DocumentSigner` component state touched by its handlers. -/
structure State where
  file : Option File
  privateKey : String
  hash : String
  signature : String
  error : String
deriving DecidableEq, Repr

/-- `DocumentSigner.handleFileChange`: no-op on an absent file; a file above
10MB only sets the error message; otherwise the file is stored, error and
signature cleared, and the document hash is fetched (`fileToBase64` then
`calculateHash`, the combined outcome injected as `hashApi`; a rejection in
either is caught and clears the hash).  Returns the new state and the API
calls made. -/
def handleFileChange (st : State) (selectedFile : Option File)
    (hashApi : String → Except String String) : State × List ApiCall :=
  match selectedFile with
  | none => (st, [])
  | some f =>
    if f.size > 10 * 1024 * 1024 then
      ({ st with error := "Arquivo excede o limite de 10MB" }, [])
    else
      let st1 := { st with file := some f, error := "", signature := "" }
      match hashApi f.base64 with
      | .ok h => ({ st1 with hash := h }, [ApiCall.calculateHash f.base64])
      | .error _ => ({ st1 with hash := "" }, [ApiCall.calculateHash f.base64])

/-- The `.sig` file content built by `DocumentSigner.handleSign`:
`JSON.stringify({signature, algorithm, filename, hash}, null, 2)`, in parsed
form. -/
def sigFileJson (result : SignResponse) (filename : String) : JVal :=
  .jobj [("signature", .jstr result.signature),
         ("algorithm", .jstr result.algorithm),
         ("filename", .jstr filename),
         ("hash", .jstr result.hash)]

/-- `DocumentSigner.handleSign`: guards on a selected file and a non-blank
private key, calls `/api/sign` with the file's Base64 content and the key
(outcome injected as `signApi`; an error resolves to the caller-visible
message), and on success stores the signature and hash and downloads
`<name>.sig` holding `sigFileJson`.  Returns the new state, the API calls
made, and the downloads triggered. -/
def handleSign (st : State)
    (signApi : String → String → Except String SignResponse) :
    State × List ApiCall × List Download :=
  match st.file with
  | none =>
    ({ st with error := "Selecione um documento e forneça a chave privada" },
     [], [])
  | some f =>
    if jsTrim st.privateKey = "" then
      ({ st with error := "Selecione um documento e forneça a chave privada" },
       [], [])
    else
      match signApi f.base64 st.privateKey with
      | .error e =>
        ({ st with error := e, signature := "" },
         [ApiCall.signDocument f.base64 st.privateKey], [])
      | .ok r =>
        ({ st with signature := r.signature, hash := r.hash, error := "" },
         [ApiCall.signDocument f.base64 st.privateKey],
         [⟨sigFileJson r f.name, f.name ++ ".sig"⟩])

end DocumentSigner

namespace SignatureVerifier

/-- The `SignatureVerifier` component state touched by its handlers.  The
signature field holds a JavaScript value: `handleSigFileUpload` can store
whatever `sigData.signature` held. -/
structure State where
  file : Option File
  signature : JVal
  publicKey : String
  result : Option VerifyResponse
  error : String

/-- `SignatureVerifier.handleFileChange`: no-op on an absent file; a file
above 10MB only sets the error message; otherwise the file is stored and
error and result cleared.  Makes no API call; the empty call list records
that. -/
def handleFileChange (st : State) (selectedFile : Option File) :
    State × List ApiCall :=
  match selectedFile with
  | none => (st, [])
  | some f =>
    if f.size > 10 * 1024 * 1024 then
      ({ st with error := "Arquivo excede o limite de 10MB" }, [])
    else
      ({ st with file := some f, error := "", result := none }, [])

/-- `SignatureVerifier.handleSigFileUpload`: no-op when no file was chosen;
otherwise reads the file text, tries `JSON.parse`, and sets the signature
state to `sigData.signature || text` — any exception (parse failure, or the
property read throwing on a `null` parse result) is caught and the raw text
is used. -/
def handleSigFileUpload (st : State) (upload : Option SigFile) : State :=
  match upload with
  | none => st
  | some f =>
    match f.parsed with
    | none => { st with signature := .jstr f.raw }
    | some v =>
      match getProp v "signature" with
      | .error _ => { st with signature := .jstr f.raw }
      | .ok sig =>
        { st with signature := if jsTruthy sig then sig else .jstr f.raw }

end SignatureVerifier

/-- JavaScript `String.prototype.split` specialised to the separator `","`
as `fileToBase64` uses it, over strings as character lists: `split` on the
empty string yields one empty segment, and each comma closes the current
segment. -/
def splitOnComma : List Char → List (List Char)
  | [] => [[]]
  | c :: rest =>
    if c = ',' then
      [] :: splitOnComma rest
    else
      match splitOnComma rest with
      | [] => [[c]]
      | s :: ss => (c :: s) :: ss

/-- The value `fileToBase64` resolves with, as a function of the
`FileReader` data-URL result: `reader.result.split(',')[1]`, `none`
modelling the JavaScript `undefined` when the index is out of range. -/
def fileToBase64Resolved (readerResult : List Char) : Option (List Char) :=
  (splitOnComma readerResult).get? 1

namespace Fixtures

/-- A file just past the 10MB limit. -/
def bigFile : File := ⟨"big.pdf", 10 * 1024 * 1024 + 1, ""⟩

/-- A small document file (content "ABC", Base64 "QUJD"). -/
def docFile : File := ⟨"doc.txt", 3, "QUJD"⟩

/-- An initial `DocumentSigner` state. -/
def signerState0 : DocumentSigner.State := ⟨none, "", "", "", ""⟩

/-- A `DocumentSigner` state with a selected document and a pasted key. -/
def signerStateDoc : DocumentSigner.State := ⟨some docFile, "PRIVKEY", "", "", ""⟩

/-- An initial `SignatureVerifier` state. -/
def verifierState0 : SignatureVerifier.State := ⟨none, .jstr "", "", none, ""⟩

/-- A hash API outcome standing for a failed `/api/hash` call. -/
def hashApiDown : String → Except String String := fun _ => .error "down"

/-- A sign API outcome delivering a successful response whose signature
string happens to be empty. -/
def emptySigApi : String → String → Except String SignResponse :=
  fun _ _ => .ok ⟨"", "abc123", "RSA-SHA256"⟩

/-- A sign API outcome delivering a successful response with a non-empty
signature string. -/
def goodSigApi : String → String → Except String SignResponse :=
  fun _ _ => .ok ⟨"U0lHTkFUVVJF", "abc123", "RSA-SHA256"⟩

/-- The raw text `JSON.stringify` writes for the `.sig` file of the
empty-signature response for `docFile`. -/
def emptySigRaw : String :=
  "\x7b\n  \"signature\": \"\",\n  \"algorithm\": \"RSA-SHA256\",\n  \"filename\": \"doc.txt\",\n  \"hash\": \"abc123\"\n\x7d"

/-- The raw text `JSON.stringify` writes for the `.sig` file of the
non-empty-signature response for `docFile`. -/
def goodSigRaw : String :=
  "\x7b\n  \"signature\": \"U0lHTkFUVVJF\",\n  \"algorithm\": \"RSA-SHA256\",\n  \"filename\": \"doc.txt\",\n  \"hash\": \"abc123\"\n\x7d"

/-- An uploaded `.sig` file whose text parses as JSON with a non-empty
signature field. -/
def jsonSigFile : SigFile :=
  ⟨"\x7b\"signature\": \"abc\"\x7d", some (.jobj [("signature", .jstr "abc")])⟩

/-- An uploaded signature file whose text is not JSON. -/
def rawSigFile : SigFile := ⟨"not json at all", none⟩

end Fixtures

end Frontend

/-- Helper: the sign/verify round trip over the modelled core, shared by the
round-trip law and the key-generation pairing guarantee. -/
theorem core_roundtrip_aux (K : Core.KeyPair) (D : Core.Document) :
    ∃ sr : Core.SignResult, Core.sign D K.privateKey = .ok sr ∧
      Core.verify D sr.signature K.publicKey =
        ⟨true, Core.digest D, Core.Reason.OK⟩ := by
  refine ⟨_, rfl, ?_⟩
  simp [Core.sign, Core.verify, Core.KeyPair.privateKey, Core.KeyPair.publicKey]

/-- C1: for every valid key pair K and every document D (including the empty
byte sequence, since D ranges over all byte lists), signing D with K's
private key succeeds, and verifying D against the produced signature with
K's public key returns valid = true and reason = OK (the round-trip law). -/
theorem sign_verify_roundtrip (K : Core.KeyPair) (D : Core.Document) :
    ∃ sr : Core.SignResult, Core.sign D K.privateKey = .ok sr ∧
      Core.verify D sr.signature K.publicKey =
        ⟨true, Core.digest D, Core.Reason.OK⟩ :=
  core_roundtrip_aux K D

/-- C2: for every valid key pair K, document D and document D2 different
from D, verifying D2 against the signature produced over D with K's private
key, using K's public key, yields valid = false with reason
INTEGRITY_VIOLATION and no other reason code. -/
theorem verify_tampered_integrity (K : Core.KeyPair) (D D2 : Core.Document)
    (h : D2 ≠ D) :
    ∃ sr : Core.SignResult, Core.sign D K.privateKey = .ok sr ∧
      Core.verify D2 sr.signature K.publicKey =
        ⟨false, Core.digest D2, Core.Reason.INTEGRITY_VIOLATION⟩ := by
  refine ⟨_, rfl, ?_⟩
  simp [Core.sign, Core.verify, Core.digest, Core.KeyPair.privateKey,
    Core.KeyPair.publicKey, Ne.symm h]

/-- Witness for C2 at a concrete tampered document. -/
theorem verify_tampered_integrity_witness :
    (([1, 2, 4] : Core.Document) ≠ [1, 2, 3]) ∧
    ∃ sr : Core.SignResult,
      Core.sign [1, 2, 3] (Core.KeyPair.mk 7 2048).privateKey = .ok sr ∧
      Core.verify [1, 2, 4] sr.signature (Core.KeyPair.mk 7 2048).publicKey =
        ⟨false, Core.digest [1, 2, 4], Core.Reason.INTEGRITY_VIOLATION⟩ :=
  ⟨by decide, verify_tampered_integrity ⟨7, 2048⟩ [1, 2, 3] [1, 2, 4] (by decide)⟩

/-- C3: for every document D and two key pairs K1, K2 from independent
generating calls (idealized as distinct key identities), verifying D against
the signature produced with K1's private key, using K2's public key, yields
valid = false with reason AUTHENTICITY_FAILURE, distinguished from
INTEGRITY_VIOLATION. -/
theorem verify_wrong_key_authenticity (K1 K2 : Core.KeyPair)
    (D : Core.Document) (h : K1.keyId ≠ K2.keyId) :
    ∃ sr : Core.SignResult, Core.sign D K1.privateKey = .ok sr ∧
      Core.verify D sr.signature K2.publicKey =
        ⟨false, Core.digest D, Core.Reason.AUTHENTICITY_FAILURE⟩ := by
  refine ⟨_, rfl, ?_⟩
  simp [Core.sign, Core.verify, Core.digest, Core.KeyPair.privateKey,
    Core.KeyPair.publicKey, h]

/-- Witness for C3 at two concrete independent key pairs. -/
theorem verify_wrong_key_authenticity_witness :
    ((Core.KeyPair.mk 1 2048).keyId ≠ (Core.KeyPair.mk 2 2048).keyId) ∧
    ∃ sr : Core.SignResult,
      Core.sign [5] (Core.KeyPair.mk 1 2048).privateKey = .ok sr ∧
      Core.verify [5] sr.signature (Core.KeyPair.mk 2 2048).publicKey =
        ⟨false, Core.digest [5], Core.Reason.AUTHENTICITY_FAILURE⟩ :=
  ⟨by decide, verify_wrong_key_authenticity ⟨1, 2048⟩ ⟨2, 2048⟩ [5] (by decide)⟩

/-- C4: verify is total — for every document, signature input and public-key
input, however malformed, it returns a VerificationResult whose reason is
one of the five reason codes, and (being a plain function into
VerificationResult rather than into an exception monad) it raises nothing to
its caller. -/
theorem verify_total_reason_codes (D : Core.Document) (S : Core.SigInput)
    (P : Core.PubKeyInput) :
    ∃ r : Core.VerificationResult, Core.verify D S P = r ∧
      (r.reason = Core.Reason.OK ∨
       r.reason = Core.Reason.INTEGRITY_VIOLATION ∨
       r.reason = Core.Reason.AUTHENTICITY_FAILURE ∨
       r.reason = Core.Reason.INVALID_KEY ∨
       r.reason = Core.Reason.INVALID_SIGNATURE) := by
  refine ⟨_, rfl, ?_⟩
  cases hr : (Core.verify D S P).reason <;> simp

/-- C5: generate with a key size outside the allow-list (2048 and 4096)
fails with UnsupportedKeySize; with an allowed size it returns a key pair of
that size whose halves are mathematically paired — a full sign/verify cycle
on arbitrary data succeeds. -/
theorem generate_allowlist_and_pairing (n e : Nat) :
    (¬(n = 2048 ∨ n = 4096) →
      Core.generate n e = .error Core.GenError.UnsupportedKeySize) ∧
    ((n = 2048 ∨ n = 4096) →
      ∃ K : Core.KeyPair, Core.generate n e = .ok K ∧ K.keySize = n ∧
        ∀ D : Core.Document, ∃ sr : Core.SignResult,
          Core.sign D K.privateKey = .ok sr ∧
          Core.verify D sr.signature K.publicKey =
            ⟨true, Core.digest D, Core.Reason.OK⟩) := by
  constructor
  · intro h
    simp [Core.generate, h]
  · intro h
    exact ⟨⟨e, n⟩, by simp [Core.generate, h], rfl, fun D => core_roundtrip_aux ⟨e, n⟩ D⟩

/-- Witness for C5 at a rejected size (3) and an allowed size (2048). -/
theorem generate_allowlist_and_pairing_witness :
    Core.generate 3 0 = .error Core.GenError.UnsupportedKeySize ∧
    ∃ K : Core.KeyPair, Core.generate 2048 5 = .ok K ∧ K.keySize = 2048 ∧
      ∀ D : Core.Document, ∃ sr : Core.SignResult,
        Core.sign D K.privateKey = .ok sr ∧
        Core.verify D sr.signature K.publicKey =
          ⟨true, Core.digest D, Core.Reason.OK⟩ :=
  ⟨(generate_allowlist_and_pairing 3 0).1 (by decide),
   (generate_allowlist_and_pairing 2048 5).2 (Or.inl rfl)⟩

/-- C6: every verification call returns the digest computed over the
submitted document in its result, whatever the outcome and verdict. -/
theorem verify_returns_digest (D : Core.Document) (S : Core.SigInput)
    (P : Core.PubKeyInput) :
    (Core.verify D S P).digestCalculated = Core.digest D := by
  cases P with
  | malformed => rfl
  | parsed keyId =>
    cases S with
    | malformed => rfl
    | parsed attested signerId =>
      simp only [Core.verify]
      split_ifs <;> rfl


/-- C7: both components enforce the 10MB document limit before any backend
call — for every selected file strictly larger than 10*1024*1024 bytes, the
signer's and the verifier's file handlers set the error message
"Arquivo excede o limite de 10MB", leave the rest of the state (the stored
file in particular) unchanged, and make no API call, so the core's size
branch is never reached from this client. -/
theorem oversize_file_rejected (stD : Frontend.DocumentSigner.State)
    (stV : Frontend.SignatureVerifier.State) (f : Frontend.File)
    (hashApi : String → Except String String)
    (h : f.size > 10 * 1024 * 1024) :
    Frontend.DocumentSigner.handleFileChange stD (some f) hashApi =
      ({ stD with error := "Arquivo excede o limite de 10MB" }, []) ∧
    Frontend.SignatureVerifier.handleFileChange stV (some f) =
      ({ stV with error := "Arquivo excede o limite de 10MB" }, []) := by
  constructor
  · simp [Frontend.DocumentSigner.handleFileChange, h]
  · simp [Frontend.SignatureVerifier.handleFileChange, h]

/-- Witness for C7 at a file one byte past the limit. -/
theorem oversize_file_rejected_witness :
    Frontend.Fixtures.bigFile.size > 10 * 1024 * 1024 ∧
    (Frontend.DocumentSigner.handleFileChange Frontend.Fixtures.signerState0
        (some Frontend.Fixtures.bigFile) Frontend.Fixtures.hashApiDown =
      ({ Frontend.Fixtures.signerState0 with
          error := "Arquivo excede o limite de 10MB" }, []) ∧
     Frontend.SignatureVerifier.handleFileChange Frontend.Fixtures.verifierState0
        (some Frontend.Fixtures.bigFile) =
      ({ Frontend.Fixtures.verifierState0 with
          error := "Arquivo excede o limite de 10MB" }, [])) :=
  ⟨by decide,
   oversize_file_rejected Frontend.Fixtures.signerState0
     Frontend.Fixtures.verifierState0 Frontend.Fixtures.bigFile
     Frontend.Fixtures.hashApiDown (by decide)⟩

/-- Counterexample to C8 as stated: a successful sign result whose signature
string is empty produces a .sig download whose upload sets the verifier's
signature state to the file's whole raw JSON text, not to the signed
signature string. -/
theorem sig_file_roundtrip_cex :
    (Frontend.DocumentSigner.handleSign Frontend.Fixtures.signerStateDoc
        Frontend.Fixtures.emptySigApi).2.2 =
      [⟨Frontend.DocumentSigner.sigFileJson ⟨"", "abc123", "RSA-SHA256"⟩
          "doc.txt", "doc.txt.sig"⟩] ∧
    (Frontend.SignatureVerifier.handleSigFileUpload
        Frontend.Fixtures.verifierState0
        (some ⟨Frontend.Fixtures.emptySigRaw,
               some (Frontend.DocumentSigner.sigFileJson
                 ⟨"", "abc123", "RSA-SHA256"⟩ "doc.txt")⟩)).signature =
      .jstr Frontend.Fixtures.emptySigRaw ∧
    Frontend.JVal.jstr Frontend.Fixtures.emptySigRaw ≠ .jstr "" := by
  refine ⟨rfl, rfl, ?_⟩
  intro hEq
  injection hEq with hs
  exact absurd hs (by decide)

/-- C8 (amended): for every successful sign result whose signature string is
non-empty, handleSign downloads exactly one JSON .sig file named
`<document>.sig` holding the fields signature, algorithm, filename and hash,
and uploading that same file in handleSigFileUpload sets the verifier's
signature state to exactly the signature string that was signed. -/
theorem sig_file_roundtrip_nonempty (st : Frontend.DocumentSigner.State)
    (f : Frontend.File)
    (signApi : String → String → Except String Frontend.SignResponse)
    (r : Frontend.SignResponse) (raw : String)
    (hf : st.file = some f) (hk : Frontend.jsTrim st.privateKey ≠ "")
    (hapi : signApi f.base64 st.privateKey = .ok r)
    (hsig : r.signature ≠ "") :
    (Frontend.DocumentSigner.handleSign st signApi).2.2 =
      [⟨Frontend.DocumentSigner.sigFileJson r f.name, f.name ++ ".sig"⟩] ∧
    ∀ vst : Frontend.SignatureVerifier.State,
      Frontend.SignatureVerifier.handleSigFileUpload vst
          (some ⟨raw, some (Frontend.DocumentSigner.sigFileJson r f.name)⟩) =
        { vst with signature := .jstr r.signature } := by
  constructor
  · simp [Frontend.DocumentSigner.handleSign, hf, hk, hapi]
  · intro vst
    simp [Frontend.SignatureVerifier.handleSigFileUpload,
      Frontend.DocumentSigner.sigFileJson, Frontend.getProp, List.lookup,
      Frontend.jsTruthy, hsig]

/-- Witness for the amended C8 at a concrete non-empty signature. -/
theorem sig_file_roundtrip_nonempty_witness :
    Frontend.Fixtures.signerStateDoc.file = some Frontend.Fixtures.docFile ∧
    Frontend.jsTrim Frontend.Fixtures.signerStateDoc.privateKey ≠ "" ∧
    Frontend.Fixtures.goodSigApi Frontend.Fixtures.docFile.base64
        Frontend.Fixtures.signerStateDoc.privateKey =
      .ok ⟨"U0lHTkFUVVJF", "abc123", "RSA-SHA256"⟩ ∧
    ("U0lHTkFUVVJF" : String) ≠ "" ∧
    ((Frontend.DocumentSigner.handleSign Frontend.Fixtures.signerStateDoc
        Frontend.Fixtures.goodSigApi).2.2 =
      [⟨Frontend.DocumentSigner.sigFileJson
          ⟨"U0lHTkFUVVJF", "abc123", "RSA-SHA256"⟩
          Frontend.Fixtures.docFile.name,
        Frontend.Fixtures.docFile.name ++ ".sig"⟩] ∧
     ∀ vst : Frontend.SignatureVerifier.State,
       Frontend.SignatureVerifier.handleSigFileUpload vst
           (some ⟨Frontend.Fixtures.goodSigRaw,
                  some (Frontend.DocumentSigner.sigFileJson
                    ⟨"U0lHTkFUVVJF", "abc123", "RSA-SHA256"⟩
                    Frontend.Fixtures.docFile.name)⟩) =
         { vst with signature := .jstr "U0lHTkFUVVJF" }) :=
  ⟨rfl, by decide, rfl, by decide,
   sig_file_roundtrip_nonempty Frontend.Fixtures.signerStateDoc
     Frontend.Fixtures.docFile Frontend.Fixtures.goodSigApi
     ⟨"U0lHTkFUVVJF", "abc123", "RSA-SHA256"⟩ Frontend.Fixtures.goodSigRaw
     rfl (by decide) rfl (by decide)⟩

/-- C9: handleSigFileUpload is total over file contents with a raw-text
fallback — when the text parses as JSON whose signature property is truthy
(present, and non-empty in the string case) the signature state becomes that
property's value; when the property is falsy, when reading it throws (a null
parse result), or when the text is not JSON, the state becomes the file's
full raw text; in every case the handler returns one of these two shapes
and lets no exception escape. -/
theorem handleSigFileUpload_total_fallback
    (st : Frontend.SignatureVerifier.State) (f : Frontend.SigFile) :
    (∀ v sig, f.parsed = some v →
      Frontend.getProp v "signature" = .ok sig → Frontend.jsTruthy sig = true →
      Frontend.SignatureVerifier.handleSigFileUpload st (some f) =
        { st with signature := sig }) ∧
    (∀ v sig, f.parsed = some v →
      Frontend.getProp v "signature" = .ok sig → Frontend.jsTruthy sig = false →
      Frontend.SignatureVerifier.handleSigFileUpload st (some f) =
        { st with signature := .jstr f.raw }) ∧
    (∀ v, f.parsed = some v → Frontend.getProp v "signature" = .error () →
      Frontend.SignatureVerifier.handleSigFileUpload st (some f) =
        { st with signature := .jstr f.raw }) ∧
    (f.parsed = none →
      Frontend.SignatureVerifier.handleSigFileUpload st (some f) =
        { st with signature := .jstr f.raw }) ∧
    (Frontend.SignatureVerifier.handleSigFileUpload st (some f) =
        { st with signature := .jstr f.raw } ∨
     ∃ v sig, f.parsed = some v ∧ Frontend.getProp v "signature" = .ok sig ∧
       Frontend.SignatureVerifier.handleSigFileUpload st (some f) =
         { st with signature := sig }) := by
  refine ⟨?_, ?_, ?_, ?_, ?_⟩
  · intro v sig hv hg ht
    simp [Frontend.SignatureVerifier.handleSigFileUpload, hv, hg, ht]
  · intro v sig hv hg ht
    simp [Frontend.SignatureVerifier.handleSigFileUpload, hv, hg, ht]
  · intro v hv hg
    simp [Frontend.SignatureVerifier.handleSigFileUpload, hv, hg]
  · intro hv
    simp [Frontend.SignatureVerifier.handleSigFileUpload, hv]
  · cases hv : f.parsed with
    | none =>
      left
      simp [Frontend.SignatureVerifier.handleSigFileUpload, hv]
    | some v =>
      cases hg : Frontend.getProp v "signature" with
      | error e =>
        left
        simp [Frontend.SignatureVerifier.handleSigFileUpload, hv, hg]
      | ok sig =>
        cases ht : Frontend.jsTruthy sig with
        | true =>
          right
          exact ⟨v, sig, rfl, hg,
            by simp [Frontend.SignatureVerifier.handleSigFileUpload, hv, hg, ht]⟩
        | false =>
          left
          simp [Frontend.SignatureVerifier.handleSigFileUpload, hv, hg, ht]

/-- Witness for C9 at a JSON signature file and at a non-JSON file. -/
theorem handleSigFileUpload_total_fallback_witness :
    Frontend.SignatureVerifier.handleSigFileUpload
        Frontend.Fixtures.verifierState0 (some Frontend.Fixtures.jsonSigFile) =
      { Frontend.Fixtures.verifierState0 with signature := .jstr "abc" } ∧
    Frontend.SignatureVerifier.handleSigFileUpload
        Frontend.Fixtures.verifierState0 (some Frontend.Fixtures.rawSigFile) =
      { Frontend.Fixtures.verifierState0 with
          signature := .jstr Frontend.Fixtures.rawSigFile.raw } :=
  ⟨(handleSigFileUpload_total_fallback Frontend.Fixtures.verifierState0
      Frontend.Fixtures.jsonSigFile).1 (.jobj [("signature", .jstr "abc")])
      (.jstr "abc") rfl rfl (by decide),
   (handleSigFileUpload_total_fallback Frontend.Fixtures.verifierState0
      Frontend.Fixtures.rawSigFile).2.2.2.1 rfl⟩

/-- Helper: splitting a comma-free string yields the single whole segment. -/
theorem splitOnComma_no_comma (s : List Char) (h : ',' ∉ s) :
    Frontend.splitOnComma s = [s] := by
  induction s with
  | nil => rfl
  | cons c rest ih =>
    have hc : ¬c = ',' := fun e => h (by simp [e])
    have hr : ',' ∉ rest := fun m => h (List.mem_cons_of_mem _ m)
    simp only [Frontend.splitOnComma, if_neg hc, ih hr]

/-- Helper: splitting past a comma-free head segment peels it off before the
first comma. -/
theorem splitOnComma_prefix_seg (pre rest : List Char) (h : ',' ∉ pre) :
    Frontend.splitOnComma (pre ++ ',' :: rest) =
      pre :: Frontend.splitOnComma rest := by
  induction pre with
  | nil => simp [Frontend.splitOnComma]
  | cons c p ih =>
    have hc : ¬c = ',' := fun e => h (by simp [e])
    have hp : ',' ∉ p := fun m => h (List.mem_cons_of_mem _ m)
    have ih2 : Frontend.splitOnComma (List.append p (',' :: rest)) =
        p :: Frontend.splitOnComma rest := ih hp
    simp only [List.cons_append, Frontend.splitOnComma, if_neg hc]
    rw [ih2]

/-- C10: fileToBase64 resolves to `result.split(',')[1]` — for a well-formed
data URL (a comma-free prefix, the separating comma, then the comma-free
Base64 payload) the resolved value is exactly the payload, the substring
after the first comma; when the reader result contains no comma the resolved
value is the JavaScript undefined, modelled as none. -/
theorem fileToBase64_split (pre payload s : List Char)
    (hpre : ',' ∉ pre) (hpay : ',' ∉ payload) (hs : ',' ∉ s) :
    Frontend.fileToBase64Resolved (pre ++ ',' :: payload) = some payload ∧
    Frontend.fileToBase64Resolved s = none := by
  constructor
  · simp [Frontend.fileToBase64Resolved, splitOnComma_prefix_seg pre payload hpre,
      splitOnComma_no_comma payload hpay]
  · simp [Frontend.fileToBase64Resolved, splitOnComma_no_comma s hs]

/-- Witness for C10 at a concrete data URL and a concrete comma-free
string. -/
theorem fileToBase64_split_witness :
    (',' ∉ "data:text/plain;base64".data) ∧ (',' ∉ "QUJD".data) ∧
    (',' ∉ "nocomma".data) ∧
    (Frontend.fileToBase64Resolved
        ("data:text/plain;base64".data ++ ',' :: "QUJD".data) =
      some "QUJD".data ∧
     Frontend.fileToBase64Resolved "nocomma".data = none) :=
  ⟨by decide, by decide, by decide,
   fileToBase64_split "data:text/plain;base64".data "QUJD".data "nocomma".data
     (by decide) (by decide) (by decide)⟩
